import Mathlib

/-!
Verification development for the PX4 landing-target estimator
(`src/modules/landing_target_estimator`).

The repository snapshot provides `LandingTargetEstimator.h` (constants,
enumerations, data structures, member declarations) and
`landing_target_estimator_params.c` (parameter declarations with their
defaults, ranges and documented values).  Constants, enumeration values
and parameter metadata below are transcribed from those files.  The
estimator's algorithmic bodies (`LandingTargetEstimator.cpp` and the
Kalman-filter classes) are not part of the snapshot; the definitions that
stand in for them are marked `Modelled from the spec:` and follow the
specification's description of the missing code.
-/

namespace LTEst

open Matrix

/-! ## Constants transcribed from `LandingTargetEstimator.h` -/

/-- From the source header: timeout (µs) after which the target is not
valid if no measurements are seen (`landing_target_valid_TIMEOUT_US`). -/
def landing_target_valid_TIMEOUT_US : ℕ := 2000000

/-- From the source header: timeout (µs) after which the measurement is
not valid (`measurement_valid_TIMEOUT_US`). -/
def measurement_valid_TIMEOUT_US : ℕ := 1000000

/-- From the source header: timeout (µs) after which the measurement is
not considered updated (`measurement_updated_TIMEOUT_US`). -/
def measurement_updated_TIMEOUT_US : ℕ := 100000

/-- From the source header: default of `_ltest_TIMEOUT_US`, the timeout
after which the filter is reset if the target is not seen (µs). -/
def ltest_TIMEOUT_US_default : ℕ := 3000000

/-- From `landing_target_estimator_params.c`: default of `LTEST_BTOUT`
(filter timeout, seconds). -/
def LTEST_BTOUT_default : ℚ := 3

/-- From `landing_target_estimator_params.c`: default of `LTEST_BIAS_LIM`
(maximal bias between drone GPS and landing-target GPS). -/
def LTEST_BIAS_LIM_default : ℚ := 1

/-- From `landing_target_estimator_params.c`: default of `LTEST_AID_MASK`. -/
def LTEST_AID_MASK_default : ℕ := 46

/-! ## `SensorFusionMask` bit constants from `LandingTargetEstimator.h` -/

/-- Header: `USE_TARGET_GPS_POS = (1 << 0)`. -/
def USE_TARGET_GPS_POS : ℕ := 1

/-- Header: `USE_UAV_GPS_VEL = (1 << 1)`. -/
def USE_UAV_GPS_VEL : ℕ := 2

/-- Header: `USE_EXT_VIS_POS = (1 << 2)`. -/
def USE_EXT_VIS_POS : ℕ := 4

/-- Header: `USE_IRLOCK_POS = (1 << 3)`. -/
def USE_IRLOCK_POS : ℕ := 8

/-- Header: `USE_UWB_POS = (1 << 4)`. -/
def USE_UWB_POS : ℕ := 16

/-- Header: `USE_MISSION_POS = (1 << 5)`. -/
def USE_MISSION_POS : ℕ := 32

/-! ## `TargetModel` enumeration from `LandingTargetEstimator.h`

The header declares
`enum class TargetModel { FullPoseDecoupled = 0, FullPoseCoupled, Horizontal, NotInit }`. -/

inductive TargetModel where
  | FullPoseDecoupled
  | FullPoseCoupled
  | Horizontal
  | NotInit
deriving DecidableEq, Repr

/-- Underlying integer value of each `TargetModel` enumerator, as fixed by
the C++ declaration order starting at `FullPoseDecoupled = 0`. -/
def TargetModel.value : TargetModel → ℕ
  | .FullPoseDecoupled => 0
  | .FullPoseCoupled => 1
  | .Horizontal => 2
  | .NotInit => 3

/-- The enumerator a given integer parameter value designates (the C++
code casts the `LTEST_MODEL` parameter integer to `TargetModel`). -/
def targetModelOfValue (v : ℕ) : Option TargetModel :=
  if v = 0 then some .FullPoseDecoupled
  else if v = 1 then some .FullPoseCoupled
  else if v = 2 then some .Horizontal
  else if v = 3 then some .NotInit
  else none

/-! ## `TargetMode` enumeration from `LandingTargetEstimator.h`

`enum class TargetMode { Moving = 0, Stationary, NotInit }`. -/

inductive TargetMode where
  | Moving
  | Stationary
  | NotInit
deriving DecidableEq, Repr

/-! ## Parameter metadata from `landing_target_estimator_params.c` -/

/-- `LTEST_MODEL` declared range: `@min 0`. -/
def LTEST_MODEL_min : ℤ := 0

/-- `LTEST_MODEL` declared range: `@max 2`. -/
def LTEST_MODEL_max : ℤ := 2

/-- The `@value` entries documented for `LTEST_MODEL`:
`0 Decoupled`, `1 Coupled`.  No entry documents the value `2`. -/
def LTEST_MODEL_documented_values : List ℤ := [0, 1]

/-- `LTEST_MODE` declared range: `@min 0`. -/
def LTEST_MODE_min : ℤ := 0

/-- `LTEST_MODE` declared range: `@max 2`. -/
def LTEST_MODE_max : ℤ := 2

/-- The `@value` entries documented for `LTEST_MODE`:
`0 Static`, `1 Moving`, `2 Moving Aug. State`. -/
def LTEST_MODE_documented_values : List ℤ := [0, 1, 2]

/-! ## Configuration parameter values (spec §6, params file)

The `LTEST_MODE` parameter selects among Static (0), Moving (1) and
Moving-Augmented (2); `LTEST_MODEL` selects Decoupled (0) or Coupled (1). -/

inductive ModeParam where
  | Static
  | Moving
  | MovingAug
deriving DecidableEq, Repr

/-- Integer value of each documented `LTEST_MODE` parameter choice. -/
def ModeParam.value : ModeParam → ℤ
  | .Static => 0
  | .Moving => 1
  | .MovingAug => 2

inductive ModelParam where
  | Decoupled
  | Coupled
deriving DecidableEq, Repr

/-- Integer value of each documented `LTEST_MODEL` parameter choice. -/
def ModelParam.value : ModelParam → ℤ
  | .Decoupled => 0
  | .Coupled => 1

/-- Modelled from the spec: filter-variant selection
(`selectTargetEstimator`, absent from the snapshot).  "MovingAug forces
coupled"; a configuration requesting MovingAug with the Decoupled model
is a configuration conflict whose action is "force Coupled;
reinitialize".  Returns the model actually used together with a flag
that is `true` exactly when the configuration had to be overridden (which
makes the estimator rebuild, i.e. reinitialize, its filters). -/
def resolveConfig : ModeParam → ModelParam → ModelParam × Bool
  | .MovingAug, .Decoupled => (.Coupled, true)
  | _, m => (m, false)

/-- Modelled from the spec: number of Kalman-filter instances for the
position estimate (`_nb_position_kf` in the header).  "Decoupled models
instantiate three per-axis filters; coupled instantiate one 3D filter." -/
def nbPositionKF : ModelParam → ℕ
  | .Decoupled => 3
  | .Coupled => 1

/-! ## Kalman-filter covariance algebra (spec §4.1)

The filter classes (`KFxyzDecoupledStatic` etc.) are not in the snapshot.
The covariance recursions below are modelled from the spec's filter
contract: `predict` maps `P` to `F·P·Fᵀ + Q`, `update` with a scalar
measurement row `H` maps `P` to `(I − K·H)·P` with `K = P·Hᵀ·S⁻¹` and
`S = H·P·Hᵀ + R`, and every assignment re-symmetrizes via
`P ← ½(P + Pᵀ)`.  Exact rational arithmetic stands in for the floats. -/

/-- Modelled from the spec: the symmetrization `½(P + Pᵀ)` applied on
each covariance assignment. -/
def symPart {n : ℕ} (P : Matrix (Fin n) (Fin n) ℚ) : Matrix (Fin n) (Fin n) ℚ :=
  (1 / 2 : ℚ) • (P + Pᵀ)

/-- Quadratic form `xᵀ·P·x` of a covariance matrix. -/
def quadForm {n : ℕ} (P : Matrix (Fin n) (Fin n) ℚ) (x : Fin n → ℚ) : ℚ :=
  x ⬝ᵥ P.mulVec x

/-- Positive semidefiniteness: symmetric with a non-negative quadratic
form (for a real symmetric matrix this is equivalent to all eigenvalues
being non-negative). -/
def isPSD {n : ℕ} (P : Matrix (Fin n) (Fin n) ℚ) : Prop :=
  Pᵀ = P ∧ ∀ x, 0 ≤ quadForm P x

/-- Modelled from the spec: covariance prediction
`P ← F·P·Fᵀ + Q`, symmetrized. -/
def kfPredictP {n : ℕ} (F Q P : Matrix (Fin n) (Fin n) ℚ) : Matrix (Fin n) (Fin n) ℚ :=
  symPart (F * P * Fᵀ + Q)

/-- Modelled from the spec: innovation variance `S = H·P·Hᵀ + R` for a
scalar measurement row `H`. -/
def innovVar {n : ℕ} (H : Fin n → ℚ) (R : ℚ) (P : Matrix (Fin n) (Fin n) ℚ) : ℚ :=
  H ⬝ᵥ P.mulVec H + R

/-- Modelled from the spec: covariance update for a scalar measurement
row, `P ← (I − K·H)·P = P − (P·Hᵀ)·(H·P)/S`, symmetrized. -/
def kfUpdateP {n : ℕ} (H : Fin n → ℚ) (R : ℚ) (P : Matrix (Fin n) (Fin n) ℚ) :
    Matrix (Fin n) (Fin n) ℚ :=
  symPart (P - (innovVar H R P)⁻¹ • Matrix.vecMulVec (P.mulVec H) (P.vecMul H))

lemma quadForm_transpose {n : ℕ} (P : Matrix (Fin n) (Fin n) ℚ) (x : Fin n → ℚ) :
    quadForm Pᵀ x = quadForm P x := by
  unfold quadForm
  rw [Matrix.mulVec_transpose, dotProduct_comm, ← Matrix.dotProduct_mulVec]

lemma symPart_transpose {n : ℕ} (P : Matrix (Fin n) (Fin n) ℚ) :
    (symPart P)ᵀ = symPart P := by
  unfold symPart
  rw [Matrix.transpose_smul, Matrix.transpose_add, Matrix.transpose_transpose, add_comm]

lemma quadForm_add {n : ℕ} (A B : Matrix (Fin n) (Fin n) ℚ) (x : Fin n → ℚ) :
    quadForm (A + B) x = quadForm A x + quadForm B x := by
  unfold quadForm
  rw [Matrix.add_mulVec, dotProduct_add]

lemma quadForm_sub {n : ℕ} (A B : Matrix (Fin n) (Fin n) ℚ) (x : Fin n → ℚ) :
    quadForm (A - B) x = quadForm A x - quadForm B x := by
  unfold quadForm
  rw [Matrix.sub_mulVec, dotProduct_sub]

lemma quadForm_smul {n : ℕ} (c : ℚ) (A : Matrix (Fin n) (Fin n) ℚ) (x : Fin n → ℚ) :
    quadForm (c • A) x = c * quadForm A x := by
  unfold quadForm
  rw [Matrix.smul_mulVec_assoc, dotProduct_smul, smul_eq_mul]

lemma quadForm_symPart {n : ℕ} (P : Matrix (Fin n) (Fin n) ℚ) (x : Fin n → ℚ) :
    quadForm (symPart P) x = quadForm P x := by
  unfold symPart
  rw [quadForm_smul, quadForm_add, quadForm_transpose]
  ring

/-- Expansion of the quadratic form along a line, used for the
Cauchy–Schwarz argument. -/
lemma quadForm_line {n : ℕ} (P : Matrix (Fin n) (Fin n) ℚ) (hsym : Pᵀ = P)
    (x y : Fin n → ℚ) (t : ℚ) :
    quadForm P (t • x + y)
      = quadForm P x * (t * t) + (2 * (x ⬝ᵥ P.mulVec y)) * t + quadForm P y := by
  have hyx : y ⬝ᵥ P.mulVec x = x ⬝ᵥ P.mulVec y := by
    rw [Matrix.dotProduct_mulVec, ← Matrix.mulVec_transpose, hsym, dotProduct_comm]
  unfold quadForm at *
  rw [Matrix.mulVec_add, Matrix.mulVec_smul]
  simp only [dotProduct_add, add_dotProduct, dotProduct_smul, smul_dotProduct,
    smul_eq_mul]
  rw [hyx]
  ring

/-- Cauchy–Schwarz inequality for a positive-semidefinite quadratic form. -/
lemma cauchy_schwarz_psd {n : ℕ} (P : Matrix (Fin n) (Fin n) ℚ) (hP : isPSD P)
    (x y : Fin n → ℚ) :
    (x ⬝ᵥ P.mulVec y) ^ 2 ≤ quadForm P x * quadForm P y := by
  obtain ⟨hsym, hpos⟩ := hP
  have hdisc := @discrim_le_zero ℚ _ (quadForm P x) (2 * (x ⬝ᵥ P.mulVec y))
    (quadForm P y) ?_
  · unfold discrim at hdisc
    nlinarith [hdisc]
  · intro t
    have := hpos (t • x + y)
    rw [quadForm_line P hsym x y t] at this
    linarith [this]

/-- Prediction preserves symmetry and positive semidefiniteness. -/
lemma kfPredictP_psd {n : ℕ} (F Q P : Matrix (Fin n) (Fin n) ℚ)
    (hP : isPSD P) (hQ : isPSD Q) : isPSD (kfPredictP F Q P) := by
  refine ⟨symPart_transpose _, fun x => ?_⟩
  rw [kfPredictP, quadForm_symPart, quadForm_add]
  have h1 : quadForm (F * P * Fᵀ) x = quadForm P (Fᵀ.mulVec x) := by
    unfold quadForm
    rw [← Matrix.mulVec_mulVec, ← Matrix.mulVec_mulVec, Matrix.dotProduct_mulVec,
      ← Matrix.mulVec_transpose]
  rw [h1]
  exact add_nonneg (hP.2 _) (hQ.2 _)

lemma vecMulVec_mulVec_eq {n : ℕ} (u v x : Fin n → ℚ) :
    (Matrix.vecMulVec u v).mulVec x = (v ⬝ᵥ x) • u := by
  funext i
  simp only [Matrix.mulVec, Matrix.vecMulVec_apply, Matrix.dotProduct, Pi.smul_apply,
    smul_eq_mul]
  rw [Finset.sum_mul]
  exact Finset.sum_congr rfl fun j _ => by ring

/-- Update preserves symmetry and positive semidefiniteness when the
measurement variance is positive. -/
lemma kfUpdateP_psd {n : ℕ} (H : Fin n → ℚ) (R : ℚ) (P : Matrix (Fin n) (Fin n) ℚ)
    (hP : isPSD P) (hR : 0 < R) : isPSD (kfUpdateP H R P) := by
  refine ⟨symPart_transpose _, fun x => ?_⟩
  have hsym := hP.1
  have hqH : 0 ≤ quadForm P H := hP.2 H
  have hqx : 0 ≤ quadForm P x := hP.2 x
  have hS : 0 < innovVar H R P := by
    unfold innovVar
    have : (0 : ℚ) ≤ H ⬝ᵥ P.mulVec H := hqH
    linarith
  have hvm : P.vecMul H = P.mulVec H := by
    rw [← Matrix.mulVec_transpose, hsym]
  rw [kfUpdateP, quadForm_symPart, quadForm_sub, quadForm_smul, hvm]
  have hq : quadForm (Matrix.vecMulVec (P.mulVec H) (P.mulVec H)) x
      = (x ⬝ᵥ P.mulVec H) ^ 2 := by
    unfold quadForm
    rw [vecMulVec_mulVec_eq, dotProduct_smul, smul_eq_mul, dotProduct_comm]
    ring
  rw [hq]
  have hcs := cauchy_schwarz_psd P hP x H
  have hβ : (x ⬝ᵥ P.mulVec H) ^ 2 ≤ quadForm P x * quadForm P H := hcs
  have hSiv : (innovVar H R P)⁻¹ * (x ⬝ᵥ P.mulVec H) ^ 2 ≤ quadForm P x := by
    rw [inv_mul_le_iff₀ hS]
    have : quadForm P x * innovVar H R P = quadForm P x * quadForm P H + quadForm P x * R := by
      unfold innovVar quadForm
      ring
    nlinarith [this]
  linarith

/-! ## Fusion-orchestrator tick model (spec §4.3, §4.4, §7)

`LandingTargetEstimator.cpp` (the bodies of `update`, `update_step`,
`selectTargetEstimator`, `publishTarget`, the `processObs*` assemblers
and `fuse_meas`) is absent from the snapshot; the step machine below is
modelled from the spec's per-tick protocol, with the constants taken
from the header.  Times are in microseconds (naturals), measurements in
exact rationals. -/

/-- The six sensor types of the `LTEST_AID_MASK` bitmask (header
`SensorFusionMask` / `ObservationType`). -/
inductive SensorType where
  | tgpsPos
  | uavGpsVel
  | vision
  | irlock
  | uwb
  | mission
deriving DecidableEq, Repr

/-- `AID_MASK` bit position of each sensor type, from the header:
bits 0–5 are target GPS position, relative GPS velocity, vision, IRLOCK,
UWB and mission landing position. -/
def SensorType.bit : SensorType → ℕ
  | .tgpsPos => 0
  | .uavGpsVel => 1
  | .vision => 2
  | .irlock => 3
  | .uwb => 4
  | .mission => 5

/-- A timestamped sensor sample (already in canonical NED form). -/
structure ObsSample where
  timestamp : ℕ
  meas : ℚ × ℚ × ℚ
deriving DecidableEq, Repr

/-- The inputs visible to the orchestrator on one tick: the latest sample
of each sensor, the vehicle GPS fix timestamp (if any), and the vehicle
NED acceleration used as prediction input. -/
structure TickInputs where
  samples : SensorType → Option ObsSample
  vehicleGpsTimestamp : Option ℕ
  vehicleAcc : ℚ × ℚ × ℚ

/-- Modelled from the spec: per-axis filter state ⟨relative position,
relative velocity, GPS bias⟩ (decoupled static state vector). -/
structure AxisState where
  p : ℚ
  v : ℚ
  b : ℚ
deriving DecidableEq, Repr

/-- Modelled from the spec: the orchestrator-owned estimator state —
the `initialized` flag, the `_last_predict` / `_last_update` timestamps
and the per-axis filters. -/
structure EstState where
  initialized : Bool
  last_predict : ℕ
  last_update : ℕ
  ax : AxisState
  ay : AxisState
  az : AxisState
deriving DecidableEq, Repr

/-- Static configuration of a run: the `LTEST_AID_MASK` bitmask, the
filter timeout `_ltest_TIMEOUT_US` (from `LTEST_BTOUT`), the bias clamp
`LTEST_BIAS_LIM` and the mode parameter. -/
structure Config where
  aidMask : ℕ
  timeout_us : ℕ
  biasLim : ℚ
  mode : ModeParam

/-- Modelled from the spec: whether a sensor participates in fusion.
Bits 0–5 of `AID_MASK` enable the six sensors; the mission landing
position is "Ignored if target GPS position enabled" (params file), so
its bit only counts when bit 0 is clear. -/
def sensorEnabled (mask : ℕ) : SensorType → Bool
  | .tgpsPos => mask.testBit 0
  | .uavGpsVel => mask.testBit 1
  | .vision => mask.testBit 2
  | .irlock => mask.testBit 3
  | .uwb => mask.testBit 4
  | .mission => mask.testBit 5 && !mask.testBit 0

/-- The sample of a sensor as the orchestrator sees it: a masked-out
sensor is never polled. -/
def effSample (mask : ℕ) (inp : TickInputs) (k : SensorType) : Option ObsSample :=
  if sensorEnabled mask k then inp.samples k else none

/-- Modelled from the spec: a sample is fresh when its age is within
`measurement_updated_TIMEOUT` (0.1 s). -/
def isFresh (now ts : ℕ) : Bool := now - ts < measurement_updated_TIMEOUT_US

/-- Modelled from the spec: a target-GPS observation "requires both
vehicle GPS fix and target GPS report valid within
`measurement_valid_TIMEOUT` (1 s)". -/
def tgpsPrereq (now : ℕ) (inp : TickInputs) (s : ObsSample) : Bool :=
  (match inp.vehicleGpsTimestamp with
   | some t => now - t < measurement_valid_TIMEOUT_US
   | none => false)
  && (now - s.timestamp < measurement_valid_TIMEOUT_US)

/-- Modelled from the spec: sensor-specific prerequisites beyond
freshness (spec §7 "Missing prerequisite"); the relative GPS velocity is
fused "only in moving-augmented models". -/
def extraPrereq (cfg : Config) (now : ℕ) (inp : TickInputs) :
    SensorType → ObsSample → Bool
  | .tgpsPos, s => tgpsPrereq now inp s
  | .uavGpsVel, _ => cfg.mode = ModeParam.MovingAug
  | _, _ => true

/-- The observation of sensor `k` accepted for fusion on this tick, if
any: the sensor must be enabled, its sample fresh, and its
prerequisites met. -/
def obsAccepted (cfg : Config) (now : ℕ) (inp : TickInputs) (k : SensorType) :
    Option ObsSample :=
  match effSample cfg.aidMask inp k with
  | none => none
  | some s =>
    if isFresh now s.timestamp && extraPrereq cfg now inp k s then some s else none

/-- Clamp to the symmetric interval `[−lim, lim]` (projection onto the
boundary when the magnitude exceeds the limit). -/
def clampQ (lim x : ℚ) : ℚ := max (-lim) (min lim x)

/-- Modelled from the spec: per-axis prediction over `dt` seconds with
vehicle acceleration input `a` (decoupled static dynamics `ṗ = v`,
`v̇ = −aᵤ`, `ḃ = 0`, exactly integrated). -/
def predictAxis (dt a : ℚ) (s : AxisState) : AxisState :=
  { p := s.p + s.v * dt - a * dt ^ 2 / 2
    v := s.v - a * dt
    b := s.b }

/-- Modelled from the spec: per-axis measurement fusion.  GPS-derived
observations observe `p + b` and update the bias, which is clamped to
`±BIAS_LIM` after every update; the other sensors have `H_bias = 0` and
leave the bias untouched. -/
def fuseAxis (lim : ℚ) (observesBias : Bool) (z : ℚ) (s : AxisState) : AxisState :=
  let y := z - (s.p + (if observesBias then s.b else 0))
  { p := s.p + y / 2
    v := s.v
    b := if observesBias then clampQ lim (s.b + y / 4) else s.b }

/-- Modelled from the spec: per-axis velocity fusion (relative GPS
velocity observes the velocity substate only). -/
def fuseVelAxis (z : ℚ) (s : AxisState) : AxisState :=
  { p := s.p, v := s.v + (z - s.v) / 2, b := s.b }

/-- Whether a sensor's observation is GPS-derived and therefore observes
the bias substate (spec §4.4: "Only GPS-derived observations update the
bias (vision, IRLOCK, UWB have `H_bias=0`)"; the mission landing point is
"treated as a pseudo target-GPS observation"). -/
def SensorType.observesBias : SensorType → Bool
  | .tgpsPos => true
  | .mission => true
  | _ => false

/-- Modelled from the spec: fuse one accepted observation into the three
per-axis filters. -/
def fuseSensor (lim : ℚ) (k : SensorType) (m : ℚ × ℚ × ℚ) (s : EstState) : EstState :=
  match k with
  | .uavGpsVel =>
    { s with ax := fuseVelAxis m.1 s.ax, ay := fuseVelAxis m.2.1 s.ay,
             az := fuseVelAxis m.2.2 s.az }
  | k =>
    { s with ax := fuseAxis lim k.observesBias m.1 s.ax,
             ay := fuseAxis lim k.observesBias m.2.1 s.ay,
             az := fuseAxis lim k.observesBias m.2.2 s.az }

/-- Fixed within-tick fusion order (spec §5: target_gps_pos, uav_gps_vel,
vision, irlock, uwb; the mission pseudo-observation last). -/
def fuseOrder : List SensorType :=
  [.tgpsPos, .uavGpsVel, .vision, .irlock, .uwb, .mission]

/-- One sensor's processing step: fuse its accepted observation if any,
recording whether a fusion happened. -/
def processSensor (cfg : Config) (now : ℕ) (inp : TickInputs)
    (st : EstState × Bool) (k : SensorType) : EstState × Bool :=
  match obsAccepted cfg now inp k with
  | none => st
  | some s => (fuseSensor cfg.biasLim k s.meas st.1, true)

/-- Modelled from the spec: poll every sensor in the fixed order and fuse
each accepted observation; the returned flag is true when at least one
update was accepted. -/
def processAll (cfg : Config) (now : ℕ) (inp : TickInputs) (s : EstState) :
    EstState × Bool :=
  fuseOrder.foldl (processSensor cfg now inp) (s, false)

/-- Modelled from the spec: a cold reset clears the filters and the
`initialized` flag. -/
def resetState : EstState :=
  { initialized := false, last_predict := 0, last_update := 0,
    ax := ⟨0, 0, 0⟩, ay := ⟨0, 0, 0⟩, az := ⟨0, 0, 0⟩ }

/-- Position sensors that may trigger initialization (spec §4.3: "any of
the enabled position sensors may trigger initialization"). -/
def initOrder : List SensorType :=
  [.tgpsPos, .vision, .irlock, .uwb, .mission]

/-- The first accepted observation of an enabled position sensor. -/
def firstAccepted (cfg : Config) (now : ℕ) (inp : TickInputs) :
    Option (SensorType × ObsSample) :=
  initOrder.findSome? fun k => (obsAccepted cfg now inp k).map (fun s => (k, s))

/-- Modelled from the spec: initialization from the first accepted
observation — position from the observation, zero velocity and bias,
both timestamps set to `now`. -/
def tryInit (cfg : Config) (now : ℕ) (inp : TickInputs) (s : EstState) : EstState :=
  match firstAccepted cfg now inp with
  | none => s
  | some (_, o) =>
    { initialized := true, last_predict := now, last_update := now,
      ax := ⟨o.meas.1, 0, 0⟩, ay := ⟨o.meas.2.1, 0, 0⟩, az := ⟨o.meas.2.2, 0, 0⟩ }

/-- Modelled from the spec: predict all three axis filters over
`dt_us` microseconds using the vehicle NED acceleration. -/
def predictAll (dt_us : ℕ) (acc : ℚ × ℚ × ℚ) (s : EstState) : EstState :=
  let dt : ℚ := (dt_us : ℚ) / 1000000
  { s with ax := predictAxis dt acc.1 s.ax, ay := predictAxis dt acc.2.1 s.ay,
           az := predictAxis dt acc.2.2 s.az }

/-- The state after the predict phase of a tick: all filters predicted
over `now − _last_predict` and `_last_predict` advanced to `now`. -/
def afterPredict (now : ℕ) (inp : TickInputs) (s : EstState) : EstState :=
  { predictAll (now - s.last_predict) inp.vehicleAcc s with last_predict := now }

/-- The state after the predict and fuse phases of a tick:
`_last_update` advances to `now` exactly when some observation was
accepted and fused. -/
def afterFuse (cfg : Config) (now : ℕ) (inp : TickInputs) (s : EstState) : EstState :=
  let pr := processAll cfg now inp (afterPredict now inp s)
  if pr.2 then { pr.1 with last_update := now } else pr.1

/-- Modelled from the spec: one orchestrator tick.  If not initialized,
attempt initialization.  Otherwise: a predict gap above 1 s forces a
reset; else predict, fuse the accepted observations (advancing
`_last_update` when any was fused), and reset if
`now − _last_update > _ltest_TIMEOUT_US`. -/
def tick (cfg : Config) (now : ℕ) (inp : TickInputs) (s : EstState) : EstState :=
  if s.initialized then
    if 1000000 < now - s.last_predict then resetState
    else if cfg.timeout_us < now - (afterFuse cfg now inp s).last_update then resetState
    else afterFuse cfg now inp s
  else
    tryInit cfg now inp s

/-- Modelled from the spec and the header constant: the published pose
is valid only while initialized and within
`landing_target_valid_TIMEOUT_US` (2 s) of the last update. -/
def publishValid (now : ℕ) (s : EstState) : Bool :=
  s.initialized && (now - s.last_update < landing_target_valid_TIMEOUT_US)

/-- State trace of a run: the post-tick state of every tick in order. -/
def runTrace (cfg : Config) : List (ℕ × TickInputs) → EstState → List EstState
  | [], _ => []
  | (t, inp) :: rest, s =>
    let s2 := tick cfg t inp s
    s2 :: runTrace cfg rest s2

/-! ## Helper lemmas about the tick machine -/

lemma processSensor_of_none {cfg : Config} {now : ℕ} {inp : TickInputs}
    {k : SensorType} (h : obsAccepted cfg now inp k = none) (st : EstState × Bool) :
    processSensor cfg now inp st k = st := by
  unfold processSensor
  rw [h]

lemma processAll_of_none {cfg : Config} {now : ℕ} {inp : TickInputs}
    (h : ∀ k, obsAccepted cfg now inp k = none) (s : EstState) :
    processAll cfg now inp s = (s, false) := by
  unfold processAll fuseOrder
  simp only [List.foldl, processSensor_of_none (h _)]

lemma afterPredict_last_update (now : ℕ) (inp : TickInputs) (s : EstState) :
    (afterPredict now inp s).last_update = s.last_update := rfl

lemma afterFuse_of_none {cfg : Config} {now : ℕ} {inp : TickInputs}
    (h : ∀ k, obsAccepted cfg now inp k = none) (s : EstState) :
    afterFuse cfg now inp s = afterPredict now inp s := by
  unfold afterFuse
  rw [processAll_of_none h]
  rfl

/-- Agreement of two tick inputs on every enabled sensor and on the
shared vehicle data. -/
def agreeOnEnabled (mask : ℕ) (i1 i2 : TickInputs) : Prop :=
  (∀ k, sensorEnabled mask k = true → i1.samples k = i2.samples k)
  ∧ i1.vehicleGpsTimestamp = i2.vehicleGpsTimestamp
  ∧ i1.vehicleAcc = i2.vehicleAcc

lemma effSample_agree {mask : ℕ} {i1 i2 : TickInputs}
    (h : agreeOnEnabled mask i1 i2) (k : SensorType) :
    effSample mask i1 k = effSample mask i2 k := by
  unfold effSample
  cases he : sensorEnabled mask k
  · simp only [Bool.false_eq_true, if_false]
  · simp only [if_true, h.1 k he]

lemma obsAccepted_agree {cfg : Config} {now : ℕ} {i1 i2 : TickInputs}
    (h : agreeOnEnabled cfg.aidMask i1 i2) (k : SensorType) :
    obsAccepted cfg now i1 k = obsAccepted cfg now i2 k := by
  unfold obsAccepted
  rw [effSample_agree h k]
  cases hs : effSample cfg.aidMask i2 k with
  | none => rfl
  | some s =>
    have hpre : extraPrereq cfg now i1 k s = extraPrereq cfg now i2 k s := by
      cases k <;> simp only [extraPrereq, tgpsPrereq, h.2.1]
    simp only [hpre]

lemma processAll_agree {cfg : Config} {now : ℕ} {i1 i2 : TickInputs}
    (h : agreeOnEnabled cfg.aidMask i1 i2) :
    processAll cfg now i1 = processAll cfg now i2 := by
  have hps : processSensor cfg now i1 = processSensor cfg now i2 := by
    funext st k
    unfold processSensor
    rw [obsAccepted_agree h k]
  funext s
  unfold processAll
  rw [hps]

lemma tryInit_agree {cfg : Config} {now : ℕ} {i1 i2 : TickInputs}
    (h : agreeOnEnabled cfg.aidMask i1 i2) (s : EstState) :
    tryInit cfg now i1 s = tryInit cfg now i2 s := by
  unfold tryInit firstAccepted
  simp only [obsAccepted_agree h]

lemma afterFuse_agree {cfg : Config} {now : ℕ} {i1 i2 : TickInputs}
    (h : agreeOnEnabled cfg.aidMask i1 i2) (s : EstState) :
    afterFuse cfg now i1 s = afterFuse cfg now i2 s := by
  unfold afterFuse afterPredict
  rw [processAll_agree h, h.2.2]

lemma tick_agree {cfg : Config} {now : ℕ} {i1 i2 : TickInputs}
    (h : agreeOnEnabled cfg.aidMask i1 i2) (s : EstState) :
    tick cfg now i1 s = tick cfg now i2 s := by
  unfold tick
  rw [afterFuse_agree h, tryInit_agree h]

lemma runTrace_agree {cfg : Config} :
    ∀ (steps : List (ℕ × TickInputs × TickInputs)) (s : EstState),
    (∀ e ∈ steps, agreeOnEnabled cfg.aidMask e.2.1 e.2.2) →
    runTrace cfg (steps.map fun e => (e.1, e.2.1)) s
      = runTrace cfg (steps.map fun e => (e.1, e.2.2)) s := by
  intro steps
  induction steps with
  | nil => intro s _; rfl
  | cons e rest ih =>
    intro s hall
    have he : agreeOnEnabled cfg.aidMask e.2.1 e.2.2 := hall e (by simp)
    have hrest : ∀ f ∈ rest, agreeOnEnabled cfg.aidMask f.2.1 f.2.2 :=
      fun f hf => hall f (by simp [hf])
    simp only [List.map, runTrace]
    rw [tick_agree he, ih _ hrest]

/-- A fold preserves any invariant its step preserves. -/
lemma foldl_preserve {α β : Type} (g : β → α → β) (Pp : β → Prop)
    (hg : ∀ b a, Pp b → Pp (g b a)) :
    ∀ (l : List α) (b : β), Pp b → Pp (l.foldl g b) := by
  intro l
  induction l with
  | nil => intro b hb; exact hb
  | cons a t ih => intro b hb; exact ih _ (hg b a hb)

/-- The per-axis bias bound carried through the tick machine. -/
def biasBounded (lim : ℚ) (s : EstState) : Prop :=
  |s.ax.b| ≤ lim ∧ |s.ay.b| ≤ lim ∧ |s.az.b| ≤ lim

lemma abs_clampQ_le {lim x : ℚ} (h : 0 ≤ lim) : |clampQ lim x| ≤ lim := by
  unfold clampQ
  rw [abs_le]
  exact ⟨le_max_left _ _, max_le (by linarith) (min_le_left _ _)⟩

lemma fuseAxis_bias {lim z : ℚ} {ob : Bool} {s : AxisState} (h : 0 ≤ lim)
    (hs : |s.b| ≤ lim) : |(fuseAxis lim ob z s).b| ≤ lim := by
  unfold fuseAxis
  cases ob
  · simpa using hs
  · simpa using @abs_clampQ_le lim (s.b + (z - (s.p + s.b)) / 4) h

lemma fuseSensor_biasBounded {lim : ℚ} {k : SensorType} {m : ℚ × ℚ × ℚ}
    {s : EstState} (h : 0 ≤ lim) (hs : biasBounded lim s) :
    biasBounded lim (fuseSensor lim k m s) := by
  obtain ⟨h1, h2, h3⟩ := hs
  cases k
  case uavGpsVel => exact ⟨h1, h2, h3⟩
  all_goals exact ⟨fuseAxis_bias h h1, fuseAxis_bias h h2, fuseAxis_bias h h3⟩

lemma processAll_biasBounded {cfg : Config} {now : ℕ} {inp : TickInputs}
    {s : EstState} (h : 0 ≤ cfg.biasLim) (hs : biasBounded cfg.biasLim s) :
    biasBounded cfg.biasLim (processAll cfg now inp s).1 := by
  unfold processAll
  refine foldl_preserve (processSensor cfg now inp)
    (fun st => biasBounded cfg.biasLim st.1) ?_ fuseOrder (s, false) hs
  intro st k hst
  unfold processSensor
  cases hob : obsAccepted cfg now inp k
  · simpa [hob] using hst
  · simpa [hob] using fuseSensor_biasBounded h hst

lemma predictAll_biasBounded {lim : ℚ} {dt_us : ℕ} {acc : ℚ × ℚ × ℚ}
    {s : EstState} (hs : biasBounded lim s) :
    biasBounded lim (predictAll dt_us acc s) := by
  obtain ⟨h1, h2, h3⟩ := hs
  exact ⟨h1, h2, h3⟩

lemma resetState_biasBounded {lim : ℚ} (h : 0 ≤ lim) : biasBounded lim resetState := by
  refine ⟨?_, ?_, ?_⟩ <;> simpa [resetState] using h

lemma tryInit_biasBounded {cfg : Config} {now : ℕ} {inp : TickInputs}
    {s : EstState} (h : 0 ≤ cfg.biasLim) (hs : biasBounded cfg.biasLim s) :
    biasBounded cfg.biasLim (tryInit cfg now inp s) := by
  unfold tryInit
  cases firstAccepted cfg now inp with
  | none => exact hs
  | some p => refine ⟨?_, ?_, ?_⟩ <;> simpa using h

lemma afterFuse_biasBounded {cfg : Config} {now : ℕ} {inp : TickInputs}
    {s : EstState} (h : 0 ≤ cfg.biasLim) (hs : biasBounded cfg.biasLim s) :
    biasBounded cfg.biasLim (afterFuse cfg now inp s) := by
  unfold afterFuse
  have hp : biasBounded cfg.biasLim (afterPredict now inp s) :=
    predictAll_biasBounded hs
  have hq := @processAll_biasBounded cfg now inp (afterPredict now inp s) h hp
  cases hpr : (processAll cfg now inp (afterPredict now inp s)).2
  · simpa [hpr] using hq
  · simpa [hpr] using hq

lemma tick_biasBounded {cfg : Config} {now : ℕ} {inp : TickInputs}
    {s : EstState} (h : 0 ≤ cfg.biasLim) (hs : biasBounded cfg.biasLim s) :
    biasBounded cfg.biasLim (tick cfg now inp s) := by
  unfold tick
  split
  · split
    · exact resetState_biasBounded h
    · split
      · exact resetState_biasBounded h
      · exact afterFuse_biasBounded h hs
  · exact tryInit_biasBounded h hs

lemma tick_timeout_reset {cfg : Config} {now : ℕ} {inp : TickInputs} {s : EstState}
    (hinit : s.initialized = true)
    (hdt : now - s.last_predict ≤ 1000000)
    (hobs : ∀ k, obsAccepted cfg now inp k = none)
    (htime : cfg.timeout_us < now - s.last_update) :
    tick cfg now inp s = resetState := by
  unfold tick
  rw [if_pos hinit, if_neg (by omega : ¬ 1000000 < now - s.last_predict),
    afterFuse_of_none hobs, afterPredict_last_update, if_pos htime]

lemma tick_reinit {cfg : Config} {now : ℕ} {inp : TickInputs} {s : EstState}
    (hinit : s.initialized = false)
    (hsome : (firstAccepted cfg now inp).isSome = true) :
    (tick cfg now inp s).initialized = true := by
  unfold tick
  rw [if_neg (by simp [hinit])]
  unfold tryInit
  cases hfa : firstAccepted cfg now inp with
  | none => rw [hfa] at hsome; simp at hsome
  | some p => obtain ⟨k0, o0⟩ := p; rfl

/-! ## Concrete scenario data used by witnesses and by C9 -/

/-- A concrete configuration: default aid mask, default filter timeout,
default bias limit, moving mode. -/
def cfgW : Config :=
  { aidMask := LTEST_AID_MASK_default, timeout_us := ltest_TIMEOUT_US_default,
    biasLim := 1, mode := ModeParam.Moving }

/-- Tick inputs with no sensor samples at all. -/
def inpNoneW : TickInputs :=
  { samples := fun _ => none, vehicleGpsTimestamp := none, vehicleAcc := (0, 0, 0) }

/-- Tick inputs with a single fresh vision sample at t = 4 s. -/
def inpVisW : TickInputs :=
  { samples := fun k => match k with
      | SensorType.vision => some ⟨4000000, (10, 0, -5)⟩
      | _ => none
    vehicleGpsTimestamp := none, vehicleAcc := (0, 0, 0) }

/-- An initialized estimator state whose last accepted update was at
t = 0 and whose last predict was at t = 2.98 s. -/
def sInitW : EstState :=
  { initialized := true, last_predict := 2980000, last_update := 0,
    ax := ⟨1, 0, 0⟩, ay := ⟨0, 0, 0⟩, az := ⟨-5, 0, 0⟩ }

/-! ## Claims -/

/-- C1: If no sensor produces an accepted update for longer than the
filter timeout `_ltest_TIMEOUT_US` (default 3 s, i.e. `LTEST_BTOUT`
seconds converted to µs), the tick resets the filters to the cleared
state and the published pose is flagged invalid; and once reset, a later
accepted observation re-initializes the estimator. -/
theorem C1_filter_timeout_reset_and_reinit :
    LTEST_BTOUT_default * 1000000 = (ltest_TIMEOUT_US_default : ℚ)
    ∧ (∀ (cfg : Config) (now : ℕ) (inp : TickInputs) (s : EstState),
        cfg.timeout_us = ltest_TIMEOUT_US_default →
        s.initialized = true →
        now - s.last_predict ≤ 1000000 →
        (∀ k, obsAccepted cfg now inp k = none) →
        ltest_TIMEOUT_US_default < now - s.last_update →
        tick cfg now inp s = resetState
          ∧ publishValid now (tick cfg now inp s) = false)
    ∧ (∀ (cfg : Config) (now : ℕ) (inp : TickInputs) (s : EstState),
        s.initialized = false →
        (firstAccepted cfg now inp).isSome = true →
        (tick cfg now inp s).initialized = true) := by
  refine ⟨by norm_num [LTEST_BTOUT_default, ltest_TIMEOUT_US_default], ?_, ?_⟩
  · intro cfg now inp s hcfg hinit hdt hobs htime
    have hr : tick cfg now inp s = resetState :=
      tick_timeout_reset hinit hdt hobs (by rw [hcfg]; exact htime)
    exact ⟨hr, by rw [hr]; rfl⟩
  · intro cfg now inp s hinit hsome
    exact tick_reinit hinit hsome

/-- Witness for C1: with `BTOUT = 3 s`, an estimator initialized with
its last update at t = 0 and no further samples is reset on the tick at
t = 3.02 s and publishes an invalid pose; a fresh vision sample at
t = 4 s re-initializes it. -/
theorem C1_witness :
    (tick cfgW 3020000 inpNoneW sInitW = resetState
      ∧ publishValid 3020000 (tick cfgW 3020000 inpNoneW sInitW) = false)
    ∧ (tick cfgW 4000000 inpVisW resetState).initialized = true := by
  refine ⟨C1_filter_timeout_reset_and_reinit.2.1 cfgW 3020000 inpNoneW sInitW rfl rfl
    (by decide) (fun k => by cases k <;> rfl) (by decide),
    C1_filter_timeout_reset_and_reinit.2.2 cfgW 4000000 inpVisW resetState rfl rfl⟩

/-- C2: bits 0–5 of `AID_MASK` correspond to target GPS position,
relative GPS velocity, vision, IRLOCK, UWB and the mission landing
position; two runs whose tick inputs agree on every enabled sensor (and
on the shared vehicle data) produce identical state traces, so
observations of a masked sensor type never alter the estimator state;
and the mission landing position is used only when target GPS position
is not enabled (target GPS wins when both bits are set). -/
theorem C2_aid_mask_noninterference :
    (USE_TARGET_GPS_POS = 2 ^ 0 ∧ USE_UAV_GPS_VEL = 2 ^ 1 ∧ USE_EXT_VIS_POS = 2 ^ 2
      ∧ USE_IRLOCK_POS = 2 ^ 3 ∧ USE_UWB_POS = 2 ^ 4 ∧ USE_MISSION_POS = 2 ^ 5)
    ∧ (∀ (cfg : Config) (steps : List (ℕ × TickInputs × TickInputs)) (s : EstState),
        (∀ e ∈ steps, agreeOnEnabled cfg.aidMask e.2.1 e.2.2) →
        runTrace cfg (steps.map fun e => (e.1, e.2.1)) s
          = runTrace cfg (steps.map fun e => (e.1, e.2.2)) s)
    ∧ (∀ mask : ℕ, mask.testBit 0 = true →
        sensorEnabled mask SensorType.mission = false
          ∧ sensorEnabled mask SensorType.tgpsPos = true) := by
  refine ⟨⟨rfl, rfl, rfl, rfl, rfl, rfl⟩, ?_, ?_⟩
  · intro cfg steps s h
    exact runTrace_agree steps s h
  · intro mask h
    exact ⟨by simp [sensorEnabled, h], by simp [sensorEnabled, h]⟩

/-- Tick inputs with a fresh vision sample only (t = 0.05 s). -/
def inpAgreeA : TickInputs :=
  { samples := fun k => match k with
      | SensorType.vision => some ⟨50000, (10, 0, -5)⟩
      | _ => none
    vehicleGpsTimestamp := none, vehicleAcc := (0, 0, 0) }

/-- Same as `inpAgreeA` plus a target-GPS sample; under mask 46 the
target-GPS bit is clear, so the two inputs agree on every enabled
sensor. -/
def inpAgreeB : TickInputs :=
  { samples := fun k => match k with
      | SensorType.vision => some ⟨50000, (10, 0, -5)⟩
      | SensorType.tgpsPos => some ⟨40000, (7, 7, 7)⟩
      | _ => none
    vehicleGpsTimestamp := none, vehicleAcc := (0, 0, 0) }

/-- Witness for C2: under the default mask 46 (target-GPS bit clear), a
run that additionally receives a target-GPS sample has the identical
state trace; and with bits 0 and 5 both set (mask 33) the mission
position sensor is disabled while target GPS is enabled. -/
theorem C2_witness :
    runTrace cfgW [(100000, inpAgreeA)] resetState
      = runTrace cfgW [(100000, inpAgreeB)] resetState
    ∧ sensorEnabled 33 SensorType.mission = false
    ∧ sensorEnabled 33 SensorType.tgpsPos = true := by
  refine ⟨C2_aid_mask_noninterference.2.1 cfgW [(100000, inpAgreeA, inpAgreeB)] resetState ?_,
    (C2_aid_mask_noninterference.2.2 33 (by decide)).1,
    (C2_aid_mask_noninterference.2.2 33 (by decide)).2⟩
  intro e he
  simp only [List.mem_singleton] at he
  subst he
  refine ⟨?_, rfl, rfl⟩
  intro k hk
  cases k
  case tgpsPos => exact absurd hk (by decide)
  all_goals rfl

/-- C3: after every predict and every update the filter covariance is
symmetric and positive semidefinite (non-negative quadratic form, hence
non-negative eigenvalues), and on each assignment symmetry is re-enforced
by replacing `P` with `½(P + Pᵀ)` — `symPart` is exactly that map and
both `kfPredictP` and `kfUpdateP` apply it on assignment. -/
theorem C3_covariance_symmetric_psd :
    (∀ (n : ℕ) (P : Matrix (Fin n) (Fin n) ℚ),
      symPart P = (1 / 2 : ℚ) • (P + Pᵀ) ∧ (symPart P)ᵀ = symPart P)
    ∧ (∀ (n : ℕ) (F Q P : Matrix (Fin n) (Fin n) ℚ),
        isPSD P → isPSD Q → isPSD (kfPredictP F Q P))
    ∧ (∀ (n : ℕ) (H : Fin n → ℚ) (R : ℚ) (P : Matrix (Fin n) (Fin n) ℚ),
        isPSD P → 0 < R → isPSD (kfUpdateP H R P)) :=
  ⟨fun _ P => ⟨rfl, symPart_transpose P⟩,
   fun _ F Q P hP hQ => kfPredictP_psd F Q P hP hQ,
   fun _ H R P hP hR => kfUpdateP_psd H R P hP hR⟩

/-- Witness for C3: predict and update starting from the zero covariance
(3×3, PSD) with measurement variance 1 yield PSD covariances. -/
theorem C3_witness :
    isPSD (kfPredictP (1 : Matrix (Fin 3) (Fin 3) ℚ) 0 0)
    ∧ isPSD (kfUpdateP (fun _ => 1) 1 (0 : Matrix (Fin 3) (Fin 3) ℚ)) :=
  ⟨C3_covariance_symmetric_psd.2.1 3 1 0 0
      ⟨by simp, fun x => by simp [quadForm]⟩
      ⟨by simp, fun x => by simp [quadForm]⟩,
   C3_covariance_symmetric_psd.2.2 3 (fun _ => 1) 1 0
      ⟨by simp, fun x => by simp [quadForm]⟩ one_pos⟩

/-- C4: the per-axis GPS-bias state satisfies `|bᵢ| ≤ BIAS_LIM` after
every update and hence after every tick: an update that would drive the
bias past the limit is clamped back onto the boundary, and the tick
machine preserves the bound on all three axes. -/
theorem C4_bias_limit :
    LTEST_BIAS_LIM_default = 1
    ∧ (∀ lim x : ℚ, 0 ≤ lim → |clampQ lim x| ≤ lim)
    ∧ (∀ (lim z : ℚ) (s : AxisState), 0 ≤ lim → |(fuseAxis lim true z s).b| ≤ lim)
    ∧ (∀ (cfg : Config) (now : ℕ) (inp : TickInputs) (s : EstState),
        0 ≤ cfg.biasLim → biasBounded cfg.biasLim s →
        biasBounded cfg.biasLim (tick cfg now inp s)) := by
  refine ⟨rfl, ?_, ?_, ?_⟩
  · intro lim x h
    exact abs_clampQ_le h
  · intro lim z s h
    simpa [fuseAxis] using @abs_clampQ_le lim (s.b + (z - (s.p + s.b)) / 4) h
  · intro cfg now inp s h hs
    exact tick_biasBounded h hs

/-- Witness for C4: the clamp really bounds an overshooting update
(`z = 100`), and one concrete tick keeps all axis biases inside the
default limit 1. -/
theorem C4_witness :
    |clampQ 1 100| ≤ 1
    ∧ |(fuseAxis 1 true 100 ⟨0, 0, 0⟩).b| ≤ 1
    ∧ biasBounded cfgW.biasLim (tick cfgW 100000 inpAgreeA resetState) :=
  ⟨C4_bias_limit.2.1 1 100 (by norm_num),
   C4_bias_limit.2.2.1 1 100 ⟨0, 0, 0⟩ (by norm_num),
   C4_bias_limit.2.2.2 cfgW 100000 inpAgreeA resetState (by norm_num [cfgW])
     ⟨by norm_num [resetState, cfgW], by norm_num [resetState, cfgW],
      by norm_num [resetState, cfgW]⟩⟩

/-- C5: the filter selection parameters are `LTEST_MODE` with documented
values Static = 0, Moving = 1, MovingAug = 2 and `LTEST_MODEL` with
documented values Decoupled = 0, Coupled = 1; requesting MovingAug
together with the Decoupled model forces the Coupled model and triggers
a reinitialization, and MovingAug always resolves to Coupled. -/
theorem C5_movingaug_forces_coupled :
    (ModeParam.value .Static = 0 ∧ ModeParam.value .Moving = 1
      ∧ ModeParam.value .MovingAug = 2
      ∧ LTEST_MODE_min = 0 ∧ LTEST_MODE_max = 2
      ∧ LTEST_MODE_documented_values = [0, 1, 2])
    ∧ (ModelParam.value .Decoupled = 0 ∧ ModelParam.value .Coupled = 1)
    ∧ resolveConfig .MovingAug .Decoupled = (.Coupled, true)
    ∧ (∀ m : ModelParam, (resolveConfig .MovingAug m).1 = ModelParam.Coupled) := by
  refine ⟨⟨rfl, rfl, rfl, rfl, rfl, rfl⟩, ⟨rfl, rfl⟩, rfl, ?_⟩
  intro m
  cases m <;> rfl

/-- C6: a sensor sample is fused only when fresh within
`measurement_updated_TIMEOUT` (0.1 s) — an observation at least that old
is not accepted and its processing step leaves the state unchanged — and
a target-GPS observation additionally requires the vehicle GPS fix and
the target GPS report to be valid within `measurement_valid_TIMEOUT`
(1 s). -/
theorem C6_freshness_gating :
    measurement_updated_TIMEOUT_US = 100000
    ∧ measurement_valid_TIMEOUT_US = 1000000
    ∧ (∀ (cfg : Config) (now : ℕ) (inp : TickInputs) (k : SensorType) (s : ObsSample),
        effSample cfg.aidMask inp k = some s →
        measurement_updated_TIMEOUT_US ≤ now - s.timestamp →
        obsAccepted cfg now inp k = none)
    ∧ (∀ (cfg : Config) (now : ℕ) (inp : TickInputs) (st : EstState × Bool)
        (k : SensorType),
        obsAccepted cfg now inp k = none → processSensor cfg now inp st k = st)
    ∧ (∀ (cfg : Config) (now : ℕ) (inp : TickInputs) (s : ObsSample),
        effSample cfg.aidMask inp SensorType.tgpsPos = some s →
        tgpsPrereq now inp s = false →
        obsAccepted cfg now inp SensorType.tgpsPos = none) := by
  refine ⟨rfl, rfl, ?_, ?_, ?_⟩
  · intro cfg now inp k s hes hold
    have hfr : isFresh now s.timestamp = false := by
      simp only [isFresh, decide_eq_false_iff_not]
      omega
    unfold obsAccepted
    rw [hes]
    simp [hfr]
  · intro cfg now inp st k hnone
    exact processSensor_of_none hnone st
  · intro cfg now inp s hes hpre
    unfold obsAccepted
    rw [hes]
    simp [extraPrereq, hpre]

/-- Tick inputs with a stale vision sample (t = 0.1 s old at t = 0.3 s)
under the default mask. -/
def inpStaleW : TickInputs :=
  { samples := fun k => match k with
      | SensorType.vision => some ⟨100000, (10, 0, -5)⟩
      | _ => none
    vehicleGpsTimestamp := none, vehicleAcc := (0, 0, 0) }

/-- Tick inputs with a target-GPS sample but no vehicle GPS fix. -/
def inpTgpsNoFixW : TickInputs :=
  { samples := fun k => match k with
      | SensorType.tgpsPos => some ⟨0, (20, 0, 0)⟩
      | _ => none
    vehicleGpsTimestamp := none, vehicleAcc := (0, 0, 0) }

/-- A configuration with only the target-GPS bit set. -/
def cfgTgpsW : Config :=
  { aidMask := 1, timeout_us := ltest_TIMEOUT_US_default, biasLim := 1,
    mode := ModeParam.Moving }

/-- Witness for C6: the stale vision sample at t = 0.3 s is rejected and
its processing step is a no-op, and the target-GPS sample without a
vehicle GPS fix is rejected. -/
theorem C6_witness :
    obsAccepted cfgW 300000 inpStaleW SensorType.vision = none
    ∧ processSensor cfgW 300000 inpStaleW (sInitW, false) SensorType.vision
        = (sInitW, false)
    ∧ obsAccepted cfgTgpsW 0 inpTgpsNoFixW SensorType.tgpsPos = none := by
  have h1 : obsAccepted cfgW 300000 inpStaleW SensorType.vision = none :=
    C6_freshness_gating.2.2.1 cfgW 300000 inpStaleW SensorType.vision
      ⟨100000, (10, 0, -5)⟩ rfl (by decide)
  refine ⟨h1, C6_freshness_gating.2.2.2.1 cfgW 300000 inpStaleW (sInitW, false)
      SensorType.vision h1,
    C6_freshness_gating.2.2.2.2 cfgTgpsW 0 inpTgpsNoFixW ⟨0, (20, 0, 0)⟩ rfl rfl⟩

/-! ## Filter-bank structure (claim C7)

The header holds three per-direction estimator slots
(`TargetEstimator *_target_estimator[nb_directions]`) and one coupled
slot (`TargetEstimatorCoupled *_target_estimator_coupled`), with
`_nb_position_kf` counting the position filter instances. -/

/-- Modelled from the spec: one scalar (per-axis) filter of the
decoupled bank, carrying its state and its own marginal position
variance. -/
structure AxisFilter where
  state : AxisState
  varP : ℚ

/-- Modelled from the spec: the decoupled bank is three independent
per-axis filters — one for x, y and z. -/
structure DecoupledBank where
  fx : AxisFilter
  fy : AxisFilter
  fz : AxisFilter

/-- The per-axis filter of a decoupled bank. -/
def bankAxis (bnk : DecoupledBank) : Fin 3 → AxisFilter
  | 0 => bnk.fx
  | 1 => bnk.fy
  | 2 => bnk.fz

/-- Modelled from the spec: the joint 3×3 position covariance assembled
from a decoupled bank — the per-axis variances on the diagonal and no
cross-axis covariance anywhere else. -/
def decoupledPosCov (bnk : DecoupledBank) : Matrix (Fin 3) (Fin 3) ℚ :=
  Matrix.diagonal fun i => (bankAxis bnk i).varP

/-- Dimension of the coupled filter's state vector (the header's
observation matrix `meas_h_xyz` has 12 columns). -/
def coupledStateDim : ℕ := 12

/-- Modelled from the spec: a coupled filter is a single filter whose
state vector spans all three axes jointly, with a full joint
covariance. -/
structure CoupledFilter where
  state : Fin 12 → ℚ
  cov : Matrix (Fin 12) (Fin 12) ℚ

/-- Index of axis `i`'s relative-position component inside the coupled
state vector (components 0–2). -/
def posIdx (i : Fin 3) : Fin 12 := ⟨i.val, by omega⟩

/-- C7: the Decoupled model instantiates exactly three independent
per-axis position filters whose assembled position covariance has no
cross-axis terms, while the Coupled model instantiates exactly one
filter whose state vector spans all three axes jointly (the three
position components embed injectively into its single 12-dimensional
state). -/
theorem C7_filter_instantiation :
    nbPositionKF ModelParam.Decoupled = 3
    ∧ nbPositionKF ModelParam.Coupled = 1
    ∧ (∀ (bnk : DecoupledBank) (i j : Fin 3), i ≠ j → decoupledPosCov bnk i j = 0)
    ∧ Function.Injective posIdx
    ∧ coupledStateDim = 12 := by
  refine ⟨rfl, rfl, ?_, ?_, rfl⟩
  · intro bnk i j hij
    exact Matrix.diagonal_apply_ne _ hij
  · intro i j hij
    have hv : (i : ℕ) = (j : ℕ) := congrArg (Fin.val : Fin 12 → ℕ) hij
    exact Fin.ext hv

/-- Witness for C7: a concrete decoupled bank has zero x–y
cross-covariance, and two distinct axes map to distinct coupled-state
indices. -/
theorem C7_witness :
    decoupledPosCov ⟨⟨⟨1, 0, 0⟩, 2⟩, ⟨⟨0, 0, 0⟩, 3⟩, ⟨⟨-5, 0, 0⟩, 4⟩⟩ 0 1 = 0
    ∧ posIdx 0 ≠ posIdx 1 := by
  refine ⟨C7_filter_instantiation.2.2.1 _ 0 1 (by decide), ?_⟩
  intro h
  exact absurd (C7_filter_instantiation.2.2.2.1 h) (by decide)

/-! ## Observation assembler (claim C8)

The header's `targetObsPos` carries a per-axis validity mask
`updated_xyz` and the observation matrix `meas_h_xyz` whose rows
correspond to the x, y, z directions; the assembled canonical
observation below keeps exactly the rows of the valid axes. -/

/-- Canonical observation produced by the assembler: measurement vector,
per-axis uncertainties, per-axis validity mask and the observation-matrix
rows (each a 12-column row as in `meas_h_xyz`). -/
structure CanonicalObs where
  meas : ℚ × ℚ × ℚ
  unc : ℚ × ℚ × ℚ
  mask : Bool × Bool × Bool
  rows : List (Fin 12 → ℚ)

/-- Number of true bits of a per-axis validity mask. -/
def countTrue (m : Bool × Bool × Bool) : ℕ :=
  (cond m.1 1 0) + (cond m.2.1 1 0) + (cond m.2.2 1 0)

/-- Observation-matrix row selecting `p` and adding the bias for axis
`i` (GPS observes `p + b`; bias components sit at indices 6–8). -/
def hPosBias (axis : Fin 3) : Fin 12 → ℚ := fun i =>
  if i.val = axis.val then 1 else if i.val = axis.val + 6 then 1 else 0

/-- Observation-matrix row selecting `p` only for axis `i`
(vision, IRLOCK and UWB do not observe the bias). -/
def hPos (axis : Fin 3) : Fin 12 → ℚ := fun i =>
  if i.val = axis.val then 1 else 0

/-- Observation-matrix row selecting the velocity substate of axis `i`
(components 3–5). -/
def hVel (axis : Fin 3) : Fin 12 → ℚ := fun i =>
  if i.val = axis.val + 3 then 1 else 0

/-- Modelled from the spec: target-GPS position observation — the NED
displacement scaled horizontally by `SCALE_X`, `SCALE_Y`, with
`R = diag(GPS_P_NOISE², GPS_P_NOISE², (2·GPS_P_NOISE)²)` and `H` picking
position plus bias on all three axes. -/
def assembleTargetGps (ned : ℚ × ℚ × ℚ) (sx sy gpsP : ℚ) : CanonicalObs :=
  { meas := (ned.1 * sx, ned.2.1 * sy, ned.2.2)
    unc := (gpsP ^ 2, gpsP ^ 2, (2 * gpsP) ^ 2)
    mask := (true, true, true)
    rows := [hPosBias 0, hPosBias 1, hPosBias 2] }

/-- Modelled from the spec: relative GPS velocity observation — the
vehicle NED velocity with `R = diag(GPS_V_NOISE²)` on all axes and `H`
picking the velocity substate rows. -/
def assembleUavGpsVel (vel : ℚ × ℚ × ℚ) (gpsV : ℚ) : CanonicalObs :=
  { meas := vel
    unc := (gpsV ^ 2, gpsV ^ 2, gpsV ^ 2)
    mask := (true, true, true)
    rows := [hVel 0, hVel 1, hVel 2] }

/-- Modelled from the spec: vision observation — the NED-transformed
marker position, horizontally scaled, with the message variance
lower-bounded by `EVP_NOISE² · max(dist_bottom, 1)` and `H` picking the
position rows only (bias not observed). -/
def assembleVision (nedPos : ℚ × ℚ × ℚ) (sx sy msgVar evpNoise distBottom : ℚ) :
    CanonicalObs :=
  { meas := (nedPos.1 * sx, nedPos.2.1 * sy, nedPos.2.2)
    unc := (max msgVar (evpNoise ^ 2 * max distBottom 1),
            max msgVar (evpNoise ^ 2 * max distBottom 1),
            max msgVar (evpNoise ^ 2 * max distBottom 1))
    mask := (true, true, true)
    rows := [hPos 0, hPos 1, hPos 2] }

/-- Modelled from the spec: IRLOCK observation — tangent angles scaled
by the altitude to horizontal displacement, z set to `−dist_bottom`,
`R = MEAS_UNC² · dist_bottom²` horizontally. -/
def assembleIrlock (tx ty sx sy measUnc distBottom : ℚ) : CanonicalObs :=
  { meas := (distBottom * tx * sx, distBottom * ty * sy, -distBottom)
    unc := (measUnc ^ 2 * distBottom ^ 2, measUnc ^ 2 * distBottom ^ 2,
            measUnc ^ 2 * distBottom ^ 2)
    mask := (true, true, true)
    rows := [hPos 0, hPos 1, hPos 2] }

/-- Modelled from the spec: UWB observation — the grid-to-NED
transformed position with `R = diag(MEAS_UNC²)` on all axes. -/
def assembleUwb (nedPos : ℚ × ℚ × ℚ) (sx sy measUnc : ℚ) : CanonicalObs :=
  { meas := (nedPos.1 * sx, nedPos.2.1 * sy, nedPos.2.2)
    unc := (measUnc ^ 2, measUnc ^ 2, measUnc ^ 2)
    mask := (true, true, true)
    rows := [hPos 0, hPos 1, hPos 2] }

/-- Modelled from the spec: mission landing position — a pseudo
target-GPS observation. -/
def assembleMission (ned : ℚ × ℚ × ℚ) (sx sy gpsP : ℚ) : CanonicalObs :=
  assembleTargetGps ned sx sy gpsP

/-- C8: for every observation object produced by the assembler, the
number of true bits of the per-axis validity mask equals the number of
rows of the observation matrix for that sample. -/
theorem C8_mask_matches_rows :
    (∀ ned sx sy gpsP, countTrue (assembleTargetGps ned sx sy gpsP).mask
      = (assembleTargetGps ned sx sy gpsP).rows.length)
    ∧ (∀ vel gpsV, countTrue (assembleUavGpsVel vel gpsV).mask
      = (assembleUavGpsVel vel gpsV).rows.length)
    ∧ (∀ p sx sy mv ev db, countTrue (assembleVision p sx sy mv ev db).mask
      = (assembleVision p sx sy mv ev db).rows.length)
    ∧ (∀ tx ty sx sy mu db, countTrue (assembleIrlock tx ty sx sy mu db).mask
      = (assembleIrlock tx ty sx sy mu db).rows.length)
    ∧ (∀ p sx sy mu, countTrue (assembleUwb p sx sy mu).mask
      = (assembleUwb p sx sy mu).rows.length)
    ∧ (∀ ned sx sy gpsP, countTrue (assembleMission ned sx sy gpsP).mask
      = (assembleMission ned sx sy gpsP).rows.length) :=
  ⟨fun _ _ _ _ => rfl, fun _ _ => rfl, fun _ _ _ _ _ _ => rfl,
   fun _ _ _ _ _ _ => rfl, fun _ _ _ _ => rfl, fun _ _ _ _ => rfl⟩

/-- An initialized estimator state for C9: last update at t = 0, last
predict at t = 2.4 s. -/
def sC9 : EstState :=
  { initialized := true, last_predict := 2400000, last_update := 0,
    ax := ⟨1, 0, 0⟩, ay := ⟨0, 0, 0⟩, az := ⟨-5, 0, 0⟩ }

/-- C9: the validity of the published pose is governed by the hard-coded
constant `landing_target_valid_TIMEOUT_US = 2000000 µs`, which is
smaller than (and independent of) the default BTOUT-derived filter
timeout of 3000000 µs; consequently at t = 2.5 s after the last update
the published pose is already invalid while the estimator is still
initialized (the BTOUT reset has not yet fired). -/
theorem C9_validity_constant_precedes_reset :
    landing_target_valid_TIMEOUT_US = 2000000
    ∧ ltest_TIMEOUT_US_default = 3000000
    ∧ landing_target_valid_TIMEOUT_US < ltest_TIMEOUT_US_default
    ∧ (∀ (now : ℕ) (s : EstState),
        publishValid now s
          = (s.initialized && decide (now - s.last_update < landing_target_valid_TIMEOUT_US)))
    ∧ (tick cfgW 2500000 inpNoneW sC9).initialized = true
    ∧ publishValid 2500000 (tick cfgW 2500000 inpNoneW sC9) = false := by
  have hobs : ∀ k, obsAccepted cfgW 2500000 inpNoneW k = none := fun k => by
    cases k <;> rfl
  have htick : tick cfgW 2500000 inpNoneW sC9 = afterPredict 2500000 inpNoneW sC9 := by
    unfold tick
    rw [if_pos (show sC9.initialized = true from rfl), if_neg (by decide),
      afterFuse_of_none hobs, afterPredict_last_update, if_neg (by decide)]
  refine ⟨rfl, rfl, by decide, fun now s => rfl, ?_, ?_⟩
  · rw [htick]; rfl
  · rw [htick]; rfl

/-- C10: besides the two documented models, the header's `TargetModel`
enumeration defines a third variant `Horizontal` with value 2 (and a
`NotInit` sentinel with value 3); the `LTEST_MODEL` parameter accepts
values up to 2, yet its documentation lists only 0 (Decoupled) and
1 (Coupled) — so the accepted value 2 selects a model the public
documentation does not describe. -/
theorem C10_undocumented_horizontal_model :
    TargetModel.value .Horizontal = 2
    ∧ TargetModel.value .NotInit = 3
    ∧ targetModelOfValue 2 = some TargetModel.Horizontal
    ∧ LTEST_MODEL_min = 0
    ∧ LTEST_MODEL_max = 2
    ∧ LTEST_MODEL_documented_values = [0, 1]
    ∧ (2 : ℤ) ∉ LTEST_MODEL_documented_values := by
  refine ⟨rfl, rfl, rfl, rfl, rfl, rfl, by decide⟩

end LTEst
